import Mathlib

/-!
Verification of the multi-source music genre match-and-aggregation engine
(`hybrid_genre_fetcher.py`, `matcher.py`, `batch_processor.py`,
`enhanced_api_client.py`).

Python floats are modelled as rationals (ℚ), Python dicts as insertion-ordered
association lists, SQLite tables keyed by a primary key as association lists
with insert-or-replace, and wall-clock timestamps as rationals (seconds).
Fallible Python code (try/except) is modelled with `Except String`.
-/

namespace MusicProyo

/-! ## Python `difflib.SequenceMatcher` (used by both similarity functions)

`HybridGenreFetcher._calculate_string_similarity` and
`Matcher.calculate_string_similarity` both return
`SequenceMatcher(None, str1, str2).ratio()`.

`ratio()` is `2*M/T` where `T = len(a) + len(b)` and `M` is the total size of
the matching blocks produced by the Ratcliff/Obershelp procedure: find the
longest matching block (on ties, the one reached first scanning ends of runs
in lexicographic order, which for a maximum-length run equals the
lexicographically least start pair), then recurse on the pieces to its left
and to its right.  With `isjunk=None` and strings shorter than 200 characters
(the `autojunk` heuristic only activates at length ≥ 200) the junk sets are
empty and the post-scan junk-extension loops of `find_longest_match` are
no-ops, so the block chosen is exactly the lexicographically least start of a
maximum-length common run.  `matchTotalF` carries a fuel argument to make the
recursion structural; fuel `len(a) + len(b)` always suffices because each
recursive call strictly decreases the combined length
(`matchTotalF_fuel_irrelevant` below proves the value is fuel-independent from
that point on). -/

/-- Length of the common run (common prefix) of two character lists. -/
def runLen : List Char → List Char → Nat
  | x :: xs, y :: ys => if x = y then runLen xs ys + 1 else 0
  | _, _ => 0

/-- All candidate blocks `(i, j, runLen (a.drop i) (b.drop j))` in
lexicographic order of the start pair `(i, j)`. -/
def candidates (a b : List Char) : List (Nat × Nat × Nat) :=
  ((List.range a.length).map (fun i =>
    (List.range b.length).map (fun j => (i, j, runLen (a.drop i) (b.drop j))))).flatten

/-- `find_longest_match` over the whole ranges: the first candidate (in start
order) attaining the maximum run length, defaulting to `(0, 0, 0)` when there
is no nonempty common run (CPython initialises `besti, bestj, bestsize` to
`alo, blo, 0` and only updates on a strictly larger size). -/
def flm (a b : List Char) : Nat × Nat × Nat :=
  (candidates a b).foldl (fun best c => if best.2.2 < c.2.2 then c else best) (0, 0, 0)

/-- Total size of all matching blocks: take the longest match and recurse on
the two remaining pieces, exactly as `get_matching_blocks` accumulates them.
The `fuel` argument makes the recursion structural; `a.length + b.length`
always suffices. -/
def matchTotalF : Nat → List Char → List Char → Nat
  | 0, _, _ => 0
  | fuel + 1, a, b =>
    let i := (flm a b).1
    let j := (flm a b).2.1
    let k := (flm a b).2.2
    if k = 0 then 0
    else k + matchTotalF fuel (a.take i) (b.take j)
           + matchTotalF fuel (a.drop (i + k)) (b.drop (j + k))

/-- Sum of the sizes of the matching blocks of `a` and `b`. -/
def matchTotal (a b : List Char) : Nat :=
  matchTotalF (a.length + b.length) a b

/-- `SequenceMatcher.ratio()`: `2*M/T`, and `1.0` when both strings are empty
(`_calculate_ratio` returns 1.0 for `length == 0`). -/
def ratio (a b : List Char) : ℚ :=
  if a.length + b.length = 0 then 1
  else 2 * (matchTotal a b : ℚ) / ((a.length : ℚ) + (b.length : ℚ))

/-- `_calculate_string_similarity(str1, str2)` /
`calculate_string_similarity(str1, str2)`:
`SequenceMatcher(None, str1, str2).ratio()`. -/
def calculate_string_similarity (str1 str2 : String) : ℚ :=
  ratio str1.data str2.data


/-! ## Python string helpers used by `hybrid_genre_fetcher.py`

`str.lower()`, `str.strip()` and `str.title()`, modelled for the ASCII range
(the Unicode-only differences are irrelevant to the claims). -/

/-- `str.lower()`. -/
def pyLower (s : String) : String := ⟨s.data.map Char.toLower⟩

/-- `str.strip()`: drop leading and trailing whitespace. -/
def pyStrip (s : String) : String :=
  ⟨((s.data.dropWhile Char.isWhitespace).reverse.dropWhile Char.isWhitespace).reverse⟩

/-- Character fold of `str.title()`: a letter after a non-letter is
upper-cased, a letter after a letter is lower-cased. -/
def titleChars : Bool → List Char → List Char
  | _, [] => []
  | prevAlpha, c :: cs =>
    if c.isAlpha then
      (if prevAlpha then c.toLower else c.toUpper) :: titleChars true cs
    else
      c :: titleChars false cs

/-- `str.title()`. -/
def pyTitle (s : String) : String := ⟨titleChars false s.data⟩

/-! ## `hybrid_genre_fetcher.py`: data model and aggregation -/

/-- `GenreSource` dataclass: container for genre data from a specific source.
`raw_data` (an opaque audit dict) is modelled as a string association list. -/
structure GenreSource where
  source : String
  genres : List String
  confidence : ℚ
  weight : ℚ
  raw_data : List (String × String) := []
  api_confidence : ℚ := 0
  match_quality : ℚ := 0
deriving DecidableEq, Repr

/-- `AggregatedGenres` dataclass: final aggregated genre results. -/
structure AggregatedGenres where
  final_genres : List String
  confidence : ℚ
  sources_used : List String
  source_breakdown : List (String × GenreSource)
  reasoning : String
deriving DecidableEq, Repr

/-- Insertion-ordered dictionary update (Python `dict` / SQLite
`INSERT OR REPLACE` on a primary key): replace the value at an existing key in
place, or append a new binding at the end. -/
def listInsertReplace {β : Type} : List (String × β) → String → β → List (String × β)
  | [], k, v => [(k, v)]
  | (k0, v0) :: rest, k, v =>
    if k0 = k then (k0, v) :: rest else (k0, v0) :: listInsertReplace rest k v

/-- Dictionary lookup. -/
def lookupKey {β : Type} : List (String × β) → String → Option β
  | [], _ => none
  | (k0, v0) :: rest, k => if k0 = k then some v0 else lookupKey rest k

/-- `defaultdict(float)` update: `scores[g] += v`. -/
def addScore : List (String × ℚ) → String → ℚ → List (String × ℚ)
  | [], g, v => [(g, v)]
  | (k, s) :: rest, g, v =>
    if k = g then (k, s + v) :: rest else (k, s) :: addScore rest g v

/-- `defaultdict(list)` update: `m[g].append(src)`. -/
def addSourceName : List (String × List String) → String → String → List (String × List String)
  | [], g, src => [(g, [src])]
  | (k, l) :: rest, g, src =>
    if k = g then (k, l ++ [src]) :: rest else (k, l) :: addSourceName rest g src

/-- `defaultdict(list)` read: missing keys give `[]`. -/
def getSourceNames (m : List (String × List String)) (g : String) : List String :=
  match lookupKey m g with
  | some l => l
  | none => []

/-- `HybridGenreFetcher._normalize_genre_name`: the static `mappings` dict. -/
def genreMappings : List (String × String) :=
  [("Hip-Hop", "Hip Hop"), ("R&B", "R&B"), ("Electronic/Dance", "Electronic"),
   ("Rock/Pop", "Rock"), ("Alternative Rock", "Alternative Rock")]

/-- `HybridGenreFetcher._normalize_genre_name(genre)`:
`genre.strip().title()` followed by `mappings.get(normalized, normalized)`. -/
def normalize_genre_name (genre : String) : String :=
  let normalized := pyTitle (pyStrip genre)
  match lookupKey genreMappings normalized with
  | some m => m
  | none => normalized

/-- The per-genre score accumulation of `aggregate_genres`: for every source
and every genre it names, `genre_scores[normalize(genre)] +=
source.weight * (source.confidence / 100)`, in iteration order. -/
def genreScores (genre_sources : List GenreSource) : List (String × ℚ) :=
  genre_sources.foldl (fun acc s =>
    s.genres.foldl (fun acc2 genre =>
      addScore acc2 (normalize_genre_name genre) (s.weight * (s.confidence / 100))) acc) []

/-- The parallel `genre_sources_map` accumulation: which sources named each
normalized genre. -/
def genreSourcesMap (genre_sources : List GenreSource) : List (String × List String) :=
  genre_sources.foldl (fun acc s =>
    s.genres.foldl (fun acc2 genre =>
      addSourceName acc2 (normalize_genre_name genre) s.source) acc) []

/-- Stable insertion step for Python's stable `sorted(..., key=score,
reverse=True)`: an element is placed before the first strictly smaller score,
so earlier elements win ties. -/
def insertDescByScore (x : String × ℚ) : List (String × ℚ) → List (String × ℚ)
  | [] => [x]
  | y :: ys => if y.2 ≤ x.2 then x :: y :: ys else y :: insertDescByScore x ys

/-- `sorted(genre_scores.items(), key=lambda x: x[1], reverse=True)`:
stable descending sort by score. -/
def sortDescByScore (l : List (String × ℚ)) : List (String × ℚ) :=
  l.foldr insertDescByScore []

/-- The selection loop of `aggregate_genres`: walk the sorted genres, keeping
every genre with score ≥ `min_score = 0.3` while fewer than 10 are kept. -/
def selectTopGenres (sorted_genres : List (String × ℚ)) : List String :=
  sorted_genres.foldl (fun final_genres p =>
    if (3 : ℚ)/10 ≤ p.2 ∧ final_genres.length < 10 then final_genres ++ [p.1]
    else final_genres) []

/-- The confidence computation of `aggregate_genres` (lines 530-551): for each
source `weighted_confidence = match_quality * weight * 100`; average across
sources; add `min(15, (numSources - 1) * 10)`; cap at 100. -/
def aggregateConfidence (genre_sources : List GenreSource) : ℚ :=
  if genre_sources = [] then 0
  else
    let source_confidences := genre_sources.map (fun s => s.match_quality * s.weight * 100)
    let avg_confidence := source_confidences.sum / (source_confidences.length : ℚ)
    let source_count_bonus : ℚ := min 15 (((genre_sources.length - 1) * 10 : ℕ) : ℚ)
    min 100 (avg_confidence + source_count_bonus)

/-- `HybridGenreFetcher.aggregate_genres(genre_sources)`. -/
def aggregate_genres (genre_sources : List GenreSource) : AggregatedGenres :=
  if genre_sources = [] then
    { final_genres := [], confidence := 0, sources_used := [],
      source_breakdown := [], reasoning := "No sources returned genres" }
  else
    let sorted_genres := sortDescByScore (genreScores genre_sources)
    let final_genres := selectTopGenres sorted_genres
    let final_confidence := aggregateConfidence genre_sources
    let sources_used := genre_sources.map (fun s => s.source)
    let gmap := genreSourcesMap genre_sources
    let reasoning_parts := (final_genres.take 3).map (fun genre =>
      genre ++ " (" ++ String.intercalate ", " (getSourceNames gmap genre) ++ ")")
    let reasoning := "Aggregated from " ++ toString sources_used.length ++ " sources: "
      ++ String.intercalate "; " reasoning_parts
    let source_breakdown := genre_sources.foldl
      (fun m s => listInsertReplace m s.source s) []
    { final_genres := final_genres, confidence := final_confidence,
      sources_used := sources_used, source_breakdown := source_breakdown,
      reasoning := reasoning }

/-! ## `hybrid_genre_fetcher.py`: SQLite genre cache

The `genre_cache` table is keyed by `cache_key` (primary key, so
`INSERT OR REPLACE` is insert-or-replace); only `genres`, `confidence` and
`weight` are persisted besides the identity columns.  Timestamps are modelled
as rational seconds; `md5` is injective on the key strings in practice and is
modelled as the identity on the composite key string. -/

/-- One row of the `genre_cache` table. -/
structure GenreCacheRow where
  artist : String
  album : String
  source : String
  genres : List String
  confidence : ℚ
  weight : ℚ
  expires_at : Option ℚ
deriving DecidableEq, Repr

/-- `HybridGenreFetcher.get_cache_key(artist, album, source)`:
`md5(f"{artist.lower()}|{album.lower()}|{source}")`. -/
def get_cache_key (artist album source : String) : String :=
  pyLower artist ++ "|" ++ pyLower album ++ "|" ++ source

/-- `HybridGenreFetcher.cache_result(artist, album, genre_source, ttl_hours)`:
`INSERT OR REPLACE` of the row with `expires_at = now + ttl_hours`. -/
def cache_result (db : List (String × GenreCacheRow)) (artist album : String)
    (genre_source : GenreSource) (now : ℚ) (ttl_hours : ℚ := 24) :
    List (String × GenreCacheRow) :=
  listInsertReplace db (get_cache_key artist album genre_source.source)
    { artist := artist, album := album, source := genre_source.source,
      genres := genre_source.genres, confidence := genre_source.confidence,
      weight := genre_source.weight, expires_at := some (now + ttl_hours * 3600) }

/-- `HybridGenreFetcher.get_cached_result(artist, album, source)`: the row is
returned only when `expires_at IS NULL OR expires_at > datetime('now')`; the
`GenreSource` is rebuilt from the persisted columns only, so `raw_data`,
`api_confidence` and `match_quality` take their dataclass defaults. -/
def get_cached_result (db : List (String × GenreCacheRow))
    (artist album source : String) (now : ℚ) : Option GenreSource :=
  match lookupKey db (get_cache_key artist album source) with
  | none => none
  | some row =>
    match row.expires_at with
    | none =>
      some { source := source, genres := row.genres,
             confidence := row.confidence, weight := row.weight }
    | some e =>
      if now < e then
        some { source := source, genres := row.genres,
               confidence := row.confidence, weight := row.weight }
      else none

/-! ## `hybrid_genre_fetcher.py`: `fetch_spotify_genres`

The network is abstracted: the Spotify album-search results, the
artist-by-id genre lookup and the artist popularity are inputs.  The code
first consults the cache, then scans the returned items keeping the best
`(similarity(artist), similarity(album)) / 2` score (strictly-greater
updates), rejects a best score `< 0.7`, fetches the artist genres, rejects an
empty genre list, and otherwise builds a `GenreSource` with
`match_quality = best_score`. -/

/-- One item of `results['albums']['items']` (the fields the code reads). -/
structure SpotifyAlbumItem where
  artistName : String
  albumName : String
  artistId : String
  albumId : String
deriving DecidableEq, Repr

/-- `source_weights['spotify']`. -/
def spotifyWeight : ℚ := 1

/-- The best-match scan of `fetch_spotify_genres`: start from
`(None, 0)` and replace only on a strictly greater score. -/
def spotifyBestLoop (artist album : String) (items : List SpotifyAlbumItem) :
    Option SpotifyAlbumItem × ℚ :=
  items.foldl (fun acc item =>
    let artist_match := calculate_string_similarity (pyLower artist) (pyLower item.artistName)
    let album_match := calculate_string_similarity (pyLower album) (pyLower item.albumName)
    let score := (artist_match + album_match) / 2
    if acc.2 < score then (some item, score) else acc) (none, 0)

/-- `HybridGenreFetcher.fetch_spotify_genres(artist, album)` with the API
abstracted: `cached` is the result of the initial `get_cached_result` call,
`items` the album-search hits, `artistGenres`/`artistPopularity` the
artist-by-id lookup. -/
def fetch_spotify_genres (spotifyEnabled : Bool) (cached : Option GenreSource)
    (_artist _album : String) (items : List SpotifyAlbumItem)
    (artistGenres : String → List String) : Option GenreSource :=
  if !spotifyEnabled then none
  else
    match cached with
    | some c => some c
    | none =>
      if items = [] then none
      else
        let best := spotifyBestLoop _artist _album items
        match best.1 with
        | none => none
        | some best_match =>
          if best.2 < 7/10 then none
          else
            let genres := artistGenres best_match.artistId
            if genres = [] then none
            else some
              { source := "spotify", genres := genres,
                confidence := best.2 * 100, weight := spotifyWeight,
                raw_data := [("album_id", best_match.albumId),
                             ("artist_id", best_match.artistId)],
                api_confidence := best.2 * 100, match_quality := best.2 }

/-! ## `matcher.py`: statuses, album matches, best-match selection -/

/-- `ProcessingStatus` enum (shared by `matcher.py` and
`batch_processor.py`). -/
inductive ProcessingStatus where
  | pending
  | in_progress
  | completed
  | failed
  | needs_review
  | skipped
deriving DecidableEq, Repr

/-- `AlbumMatch` dataclass of `matcher.py`: one album match from an API. -/
structure AlbumMatch where
  source : String
  artist : String
  album : String
  match_score : ℚ
  raw_data : List (String × String) := []
deriving DecidableEq, Repr

/-- Python's `max(all_matches, key=lambda x: x.match_score)`: scan left to
right, replacing only on a strictly greater key, so the first of several
maximal elements wins. -/
def pythonMaxByScore (l : List AlbumMatch) : Option AlbumMatch :=
  match l with
  | [] => none
  | h :: t => some (t.foldl (fun best x => if best.match_score < x.match_score then x else best) h)

/-- `Matcher.find_best_album_match(artist, album)` with the three adapter
searches abstracted as their result lists (the code concatenates Spotify,
MusicBrainz and Deezer results in that fixed order; `_search_deezer_albums`
currently always returns `[]`), returns `None` when no adapter matched, else
the score maximum. -/
def find_best_album_match (spotify_matches mb_matches deezer_matches : List AlbumMatch) :
    Option AlbumMatch :=
  let all_matches := spotify_matches ++ mb_matches ++ deezer_matches
  pythonMaxByScore all_matches

/-- `Matcher` confidence thresholds set in `__init__`:
`high_confidence_threshold = 95.0`, `review_threshold = 70.0`,
`skip_threshold = 40.0`. -/
def matcherSkipThreshold : ℚ := 40

/-- `Matcher.evaluate_confidence(confidence)`: "Currently configured for full
manual review - all matches go to NEEDS_REVIEW". -/
def evaluate_confidence (confidence : ℚ) : ProcessingStatus :=
  if matcherSkipThreshold ≤ confidence then ProcessingStatus.needs_review
  else ProcessingStatus.skipped

/-- The `processing_status` assigned by `Matcher.match_album`: `SKIPPED` when
`find_best_album_match` returned `None`, otherwise
`evaluate_confidence(best_match.match_score * 100)`. -/
def matchAlbumStatus (best_match : Option AlbumMatch) : ProcessingStatus :=
  match best_match with
  | none => ProcessingStatus.skipped
  | some m => evaluate_confidence (m.match_score * 100)

/-! ## `batch_processor.py`: per-album processing and the batch loop

`BatchProcessor.process_album` wraps the whole per-album pipeline in a
`try/except`; the matcher call and the collaborator calls (genre
standardizer, merge, file updates) are modelled as `Except String`-valued
inputs, so that an exception in any step is an `Except.error` that the
handler converts into a `FAILED` result.  The manual-review reason strings
(`f"Medium confidence ({confidence:.1f}%) - requires manual review"`,
`f"Low confidence ({confidence:.1f}%) - uncertain match"`,
`f"Very low confidence ({confidence:.1f}%) - no reliable match found"`) are
modelled as an inductive tag, one constructor per template. -/

/-- The three `manual_review_reason` message templates of `process_album`. -/
inductive ReviewReason where
  | mediumConfidence
  | lowConfidence
  | veryLowConfidence
deriving DecidableEq, Repr

/-- The fields of the matcher's `MatchResult` that `process_album` reads. -/
structure MatchOutcome where
  genres : List String
  genre_confidence : ℚ
  genre_sources_used : List String
deriving DecidableEq, Repr

/-- `AlbumProcessingResult` dataclass (the fields the claims are about). -/
structure AlbumProcessingResult where
  album_key : String
  artist : String
  album : String
  original_genres : List String
  suggested_genres : List String
  final_genres : List String
  confidence : ℚ
  sources_used : List String
  files_updated : Nat
  status : ProcessingStatus
  error_message : Option String := none
  manual_review_reason : Option ReviewReason := none
deriving DecidableEq, Repr

/-- `BatchProcessor.process_album(album_key, album_info,
confidence_threshold, dry_run)`.  `matchResult` stands for
`self.matcher.match_album(...)`, `normalizeList` for
`self.genre_standardizer.normalize_genre_list`, `mergeGenres` for
`self._merge_genres`, `updateFiles` for `self._update_album_files`; each may
raise, which the surrounding `try` turns into a `FAILED` result carrying
`str(e)`. -/
def process_album (album_key artist album : String) (original_genres : List String)
    (matchResult : Except String MatchOutcome)
    (normalizeList : List String → Except String (List String))
    (mergeGenres : List String → List String → Except String (List String))
    (updateFiles : List String → Except String Nat)
    (confidence_threshold : ℚ) (dry_run : Bool) : AlbumProcessingResult :=
  let body : Except String AlbumProcessingResult := do
    let mr ← matchResult
    let suggested_genres := mr.genres
    let confidence := mr.genre_confidence
    let sources_used := mr.genre_sources_used
    let normalized_genres ← normalizeList suggested_genres
    if confidence_threshold ≤ confidence then do
      let final_genres ← mergeGenres original_genres normalized_genres
      let files_updated ← if dry_run then pure 0 else updateFiles final_genres
      pure { album_key := album_key, artist := artist, album := album,
             original_genres := original_genres, suggested_genres := suggested_genres,
             final_genres := final_genres, confidence := confidence,
             sources_used := sources_used, files_updated := files_updated,
             status := ProcessingStatus.completed }
    else if (70 : ℚ) ≤ confidence then
      pure { album_key := album_key, artist := artist, album := album,
             original_genres := original_genres, suggested_genres := suggested_genres,
             final_genres := original_genres, confidence := confidence,
             sources_used := sources_used, files_updated := 0,
             status := ProcessingStatus.needs_review,
             manual_review_reason := some ReviewReason.mediumConfidence }
    else if (40 : ℚ) ≤ confidence then
      pure { album_key := album_key, artist := artist, album := album,
             original_genres := original_genres, suggested_genres := suggested_genres,
             final_genres := original_genres, confidence := confidence,
             sources_used := sources_used, files_updated := 0,
             status := ProcessingStatus.needs_review,
             manual_review_reason := some ReviewReason.lowConfidence }
    else
      pure { album_key := album_key, artist := artist, album := album,
             original_genres := original_genres, suggested_genres := suggested_genres,
             final_genres := original_genres, confidence := confidence,
             sources_used := sources_used, files_updated := 0,
             status := ProcessingStatus.skipped,
             manual_review_reason := some ReviewReason.veryLowConfidence }
  match body with
  | Except.ok r => r
  | Except.error e =>
    { album_key := album_key, artist := artist, album := album,
      original_genres := original_genres, suggested_genres := [],
      final_genres := original_genres, confidence := 0, sources_used := [],
      files_updated := 0, status := ProcessingStatus.failed,
      error_message := some e }

/-- One entry of `self.scanner.albums`. -/
structure AlbumInfo where
  artist : String
  album : String
  genres : List String
deriving DecidableEq, Repr

/-- `BatchProcessor.run_batch_job(job_id, album_keys)`, reduced to the per-
album loop: keys missing from the scanner's library are logged and skipped,
every other key is processed with `process_album` and its result saved; a
`FAILED` result is a value like any other, so the loop always reaches the
next album. -/
def run_batch_job (albums : List (String × AlbumInfo)) (album_keys : List String)
    (pipeline : String → Except String MatchOutcome)
    (normalizeList : List String → Except String (List String))
    (mergeGenres : List String → List String → Except String (List String))
    (updateFiles : List String → Except String Nat)
    (confidence_threshold : ℚ) (dry_run : Bool) : List AlbumProcessingResult :=
  album_keys.foldl (fun results album_key =>
    match lookupKey albums album_key with
    | none => results
    | some info =>
      results ++ [process_album album_key info.artist info.album info.genres
        (pipeline album_key) normalizeList mergeGenres updateFiles
        confidence_threshold dry_run]) []

/-! ## `enhanced_api_client.py`: `APICache` and the MusicBrainz search

`api_cache` rows are keyed by `key` (primary key); `response` stores a JSON
object, modelled as a string association list (the `json.dumps`/`json.loads`
round trip preserves it).  Times are rational Unix seconds. -/

/-- One row of the `api_cache` table. -/
structure APICacheRow where
  response : List (String × String)
  timestamp : ℚ
  source : String
  expires_at : ℚ
deriving DecidableEq, Repr

/-- `APICache.set(key, data, source, ttl_hours)`:
`INSERT OR REPLACE` with `expires_at = time.time() + ttl_hours * 3600`. -/
def apiCacheSet (db : List (String × APICacheRow)) (key : String)
    (data : List (String × String)) (source : String) (now : ℚ)
    (ttl_hours : ℚ := 24) : List (String × APICacheRow) :=
  listInsertReplace db key
    { response := data, timestamp := now, source := source,
      expires_at := now + ttl_hours * 3600 }

/-- `APICache.get(key)`: return the stored response only when
`expires_at > current_time`. -/
def apiCacheGet (db : List (String × APICacheRow)) (key : String) (now : ℚ) :
    Option (List (String × String)) :=
  match lookupKey db key with
  | none => none
  | some row => if now < row.expires_at then some row.response else none

/-- One entry of the MusicBrainz `release-list` search result; the code only
reads its `id` (it takes `result['release-list'][0]` without any similarity
scoring). -/
structure MBReleaseStub where
  id : String
deriving DecidableEq, Repr

/-- The fields of a detailed MusicBrainz release that
`_get_musicbrainz_release_details` reads. -/
structure MBReleaseDetail where
  artistName : String
  title : String
  date : Option String
  country : Option String
  labelInfoList : List String
  barcode : Option String
  genreList : List String
  tagList : List (String × Int)
  rgGenreList : List String
  rgTagList : List (String × Int)
deriving DecidableEq, Repr

/-- `AlbumMatch` dataclass of `enhanced_api_client.py` (distinct from the
`matcher.py` one): note it has no match-score field at all, only a
metadata-completeness `confidence`. -/
structure EnhancedAlbumMatch where
  artist : String
  album : String
  mbid : Option String
  confidence : ℚ
  genres : List String
  year : Option Int
  country : Option String
  label : Option String
deriving DecidableEq, Repr

/-- Python `set.add` modelled as order-preserving deduplicating append. -/
def addUnique (l : List String) (x : String) : List String :=
  if x ∈ l then l else l ++ [x]

/-- The genre extraction of `_get_musicbrainz_release_details`: release
`genre-list` names, release `tag-list` names with `count > 0`, then the
release-group `genre-list` and `tag-list` the same way (empty lists model the
absent keys). -/
def extractMBGenres (d : MBReleaseDetail) : List String :=
  let g1 := d.genreList.foldl addUnique []
  let g2 := (d.tagList.filter (fun t => 0 < t.2)).foldl (fun acc t => addUnique acc t.1) g1
  let g3 := d.rgGenreList.foldl addUnique g2
  (d.rgTagList.filter (fun t => 0 < t.2)).foldl (fun acc t => addUnique acc t.1) g3

/-- `EnhancedAPIClient._extract_year`: `int(date_str[:4])`, `None` on parse
failure. -/
def extract_year (date_str : Option String) : Option Int :=
  match date_str with
  | none => none
  | some s => String.toInt? ⟨s.data.take 4⟩

/-- `EnhancedAPIClient._calculate_mb_confidence(release, genre_count)`: base
50, plus `min(30, genre_count * 5)`, plus 5 for each of date, country,
label-info-list and barcode being present, capped at 95. -/
def calculate_mb_confidence (d : MBReleaseDetail) (genre_count : Nat) : ℚ :=
  min 95 (50 + min 30 ((genre_count : ℚ) * 5)
    + (if d.date.isSome then 5 else 0)
    + (if d.country.isSome then 5 else 0)
    + (if d.labelInfoList ≠ [] then 5 else 0)
    + (if d.barcode.isSome then 5 else 0))

/-- `EnhancedAPIClient._get_musicbrainz_release_details(mbid)` with the
`get_release_by_id` call abstracted as `details` (`none` models the `except`
path). -/
def get_musicbrainz_release_details (details : String → Option MBReleaseDetail)
    (mbid : String) : Option EnhancedAlbumMatch :=
  match details mbid with
  | none => none
  | some d =>
    let genres := extractMBGenres d
    some { artist := d.artistName, album := d.title, mbid := some mbid,
           confidence := calculate_mb_confidence d genres.length,
           genres := genres, year := extract_year d.date,
           country := d.country, label := d.labelInfoList.head? }

/-- `EnhancedAPIClient.search_musicbrainz_release(artist, album)` with the
API abstracted: `cached` is the initial cache consultation (`some c` a hit
that is returned as is), `release_list` the `search_releases` hits.  The code
takes `result['release-list'][0]` — the first hit — and never computes any
string similarity against the query. -/
def search_musicbrainz_release (cached : Option (Option EnhancedAlbumMatch))
    (_artist _album : String) (release_list : List MBReleaseStub)
    (details : String → Option MBReleaseDetail) : Option EnhancedAlbumMatch :=
  match cached with
  | some c => c
  | none =>
    match release_list with
    | [] => none
    | best_release :: _ => get_musicbrainz_release_details details best_release.id

/-! ## Lemmas about the `SequenceMatcher` model -/

lemma runLen_le_left : ∀ x y : List Char, runLen x y ≤ x.length := by
  intro x
  induction x with
  | nil => intro y; cases y <;> simp [runLen]
  | cons c cs ih =>
    intro y
    cases y with
    | nil => simp [runLen]
    | cons d ds =>
      simp only [runLen, List.length_cons]
      split
      · exact Nat.succ_le_succ (ih ds)
      · exact Nat.zero_le _

lemma runLen_le_right : ∀ x y : List Char, runLen x y ≤ y.length := by
  intro x
  induction x with
  | nil => intro y; cases y <;> simp [runLen]
  | cons c cs ih =>
    intro y
    cases y with
    | nil => simp [runLen]
    | cons d ds =>
      simp only [runLen, List.length_cons]
      split
      · exact Nat.succ_le_succ (ih ds)
      · exact Nat.zero_le _

lemma runLen_self : ∀ x : List Char, runLen x x = x.length := by
  intro x
  induction x with
  | nil => simp [runLen]
  | cons c cs ih => simp [runLen, ih]

lemma mem_candidates {a b : List Char} {c : Nat × Nat × Nat} :
    c ∈ candidates a b ↔
      c.1 < a.length ∧ c.2.1 < b.length ∧
        c.2.2 = runLen (a.drop c.1) (b.drop c.2.1) := by
  obtain ⟨i, j, k⟩ := c
  constructor
  · intro h
    rw [candidates, List.mem_flatten] at h
    obtain ⟨l, hl, hmem⟩ := h
    rw [List.mem_map] at hl
    obtain ⟨i0, hi0, rfl⟩ := hl
    rw [List.mem_range] at hi0
    rw [List.mem_map] at hmem
    obtain ⟨j0, hj0, hval⟩ := hmem
    rw [List.mem_range] at hj0
    injection hval with h1 hrest
    injection hrest with h2 h3
    subst h1
    subst h2
    subst h3
    exact ⟨hi0, hj0, rfl⟩
  · rintro ⟨hi, hj, hk⟩
    dsimp only at hi hj hk
    rw [candidates, List.mem_flatten]
    refine ⟨_, List.mem_map.mpr ⟨i, List.mem_range.mpr hi, rfl⟩, ?_⟩
    exact List.mem_map.mpr ⟨j, List.mem_range.mpr hj, by rw [hk]⟩

lemma flm_foldl_mem (l : List (Nat × Nat × Nat)) (init : Nat × Nat × Nat) :
    l.foldl (fun best c => if best.2.2 < c.2.2 then c else best) init = init ∨
      l.foldl (fun best c => if best.2.2 < c.2.2 then c else best) init ∈ l := by
  induction l generalizing init with
  | nil => left; rfl
  | cons c t ih =>
    simp only [List.foldl_cons]
    rcases ih (if init.2.2 < c.2.2 then c else init) with h | h
    · rw [h]
      split
      · right; exact List.mem_cons_self _ _
      · left; rfl
    · right; exact List.mem_cons_of_mem _ h

lemma flm_foldl_ge (l : List (Nat × Nat × Nat)) (init : Nat × Nat × Nat) :
    init.2.2 ≤ (l.foldl (fun best c => if best.2.2 < c.2.2 then c else best) init).2.2 ∧
      ∀ c ∈ l, c.2.2 ≤ (l.foldl (fun best c => if best.2.2 < c.2.2 then c else best) init).2.2 := by
  induction l generalizing init with
  | nil => exact ⟨le_refl _, by simp⟩
  | cons c t ih =>
    simp only [List.foldl_cons]
    obtain ⟨h1, h2⟩ := ih (if init.2.2 < c.2.2 then c else init)
    have hinit : init.2.2 ≤ (if init.2.2 < c.2.2 then c else init).2.2 := by
      split <;> omega
    have hc : c.2.2 ≤ (if init.2.2 < c.2.2 then c else init).2.2 := by
      split <;> omega
    refine ⟨le_trans hinit h1, ?_⟩
    intro d hd
    rcases List.mem_cons.mp hd with rfl | hd
    · exact le_trans hc h1
    · exact h2 d hd

lemma flm_eq_or_mem (a b : List Char) :
    flm a b = (0, 0, 0) ∨ flm a b ∈ candidates a b :=
  flm_foldl_mem _ _

lemma flm_ge (a b : List Char) : ∀ c ∈ candidates a b, c.2.2 ≤ (flm a b).2.2 :=
  (flm_foldl_ge _ _).2

lemma flm_bounds {a b : List Char} (h : (flm a b).2.2 ≠ 0) :
    (flm a b).1 < a.length ∧ (flm a b).2.1 < b.length ∧
      (flm a b).1 + (flm a b).2.2 ≤ a.length ∧
      (flm a b).2.1 + (flm a b).2.2 ≤ b.length := by
  rcases flm_eq_or_mem a b with heq | hmem
  · rw [heq] at h; simp at h
  · obtain ⟨hi, hj, hk⟩ := mem_candidates.mp hmem
    have h1 : runLen (a.drop (flm a b).1) (b.drop (flm a b).2.1) ≤ a.length - (flm a b).1 := by
      have := runLen_le_left (a.drop (flm a b).1) (b.drop (flm a b).2.1)
      simpa using this
    have h2 : runLen (a.drop (flm a b).1) (b.drop (flm a b).2.1) ≤ b.length - (flm a b).2.1 := by
      have := runLen_le_right (a.drop (flm a b).1) (b.drop (flm a b).2.1)
      simpa using this
    omega

lemma matchTotalF_le (fuel : Nat) : ∀ a b : List Char,
    matchTotalF fuel a b ≤ a.length ∧ matchTotalF fuel a b ≤ b.length := by
  induction fuel with
  | zero => intro a b; simp [matchTotalF]
  | succ f ih =>
    intro a b
    simp only [matchTotalF]
    split
    · simp
    · rename_i hk
      obtain ⟨hi, hj, hik, hjk⟩ := flm_bounds hk
      obtain ⟨hl1, hl2⟩ := ih (a.take (flm a b).1) (b.take (flm a b).2.1)
      obtain ⟨hr1, hr2⟩ := ih (a.drop ((flm a b).1 + (flm a b).2.2))
        (b.drop ((flm a b).2.1 + (flm a b).2.2))
      simp only [List.length_take, List.length_drop] at hl1 hl2 hr1 hr2
      omega

lemma matchTotalF_nil (fuel : Nat) : matchTotalF fuel [] [] = 0 := by
  cases fuel <;> simp [matchTotalF, flm, candidates]

lemma flm_self {x : List Char} (hx : x ≠ []) : flm x x = (0, 0, x.length) := by
  have hlen : 0 < x.length := List.length_pos.mpr hx
  have hmem0 : ((0, 0, x.length) : Nat × Nat × Nat) ∈ candidates x x := by
    rw [mem_candidates]
    exact ⟨hlen, hlen, by simp [runLen_self]⟩
  have hge : x.length ≤ (flm x x).2.2 := flm_ge x x _ hmem0
  rcases flm_eq_or_mem x x with heq | hmem
  · rw [heq] at hge
    simp only at hge
    omega
  · obtain ⟨hi, hj, hk⟩ := mem_candidates.mp hmem
    have h1 : runLen (x.drop (flm x x).1) (x.drop (flm x x).2.1) ≤ x.length - (flm x x).1 := by
      have := runLen_le_left (x.drop (flm x x).1) (x.drop (flm x x).2.1)
      simpa using this
    have h2 : runLen (x.drop (flm x x).1) (x.drop (flm x x).2.1) ≤ x.length - (flm x x).2.1 := by
      have := runLen_le_right (x.drop (flm x x).1) (x.drop (flm x x).2.1)
      simpa using this
    have hi0 : (flm x x).1 = 0 := by omega
    have hj0 : (flm x x).2.1 = 0 := by omega
    have hkval : (flm x x).2.2 = x.length := by
      rw [hk, hi0, hj0]
      simp [runLen_self]
    have : flm x x = ((flm x x).1, (flm x x).2.1, (flm x x).2.2) := rfl
    rw [this, hi0, hj0, hkval]

lemma matchTotal_self (x : List Char) : matchTotal x x = x.length := by
  rcases eq_or_ne x [] with rfl | hx
  · simp [matchTotal, matchTotalF_nil]
  · have hlen : 0 < x.length := List.length_pos.mpr hx
    obtain ⟨n, hn⟩ : ∃ n, x.length + x.length = n + 1 :=
      ⟨x.length + x.length - 1, by omega⟩
    rw [matchTotal, hn]
    simp only [matchTotalF, flm_self hx]
    rw [if_neg (by omega)]
    simp [List.take_zero, List.drop_length, matchTotalF_nil]

/-- The fuel argument of `matchTotalF` is irrelevant from `a.length + b.length`
on (each recursive call strictly shrinks the combined length), so `matchTotal`
computes the same total as the unbounded Python recursion. -/
lemma matchTotalF_fuel_irrelevant (s : Nat) : ∀ (a b : List Char) (f g : Nat),
    a.length + b.length = s → s ≤ f → s ≤ g →
    matchTotalF f a b = matchTotalF g a b := by
  induction s using Nat.strong_induction_on with
  | _ s ih =>
    intro a b f g hs hf hg
    cases f with
    | zero =>
      have hs0 : s = 0 := Nat.le_zero.mp hf
      subst hs0
      have ha : a = [] := List.length_eq_zero.mp (by omega)
      have hb : b = [] := List.length_eq_zero.mp (by omega)
      subst ha; subst hb
      rw [matchTotalF_nil, matchTotalF_nil]
    | succ f0 =>
      cases g with
      | zero =>
        have hs0 : s = 0 := Nat.le_zero.mp hg
        subst hs0
        have ha : a = [] := List.length_eq_zero.mp (by omega)
        have hb : b = [] := List.length_eq_zero.mp (by omega)
        subst ha; subst hb
        rw [matchTotalF_nil, matchTotalF_nil]
      | succ g0 =>
        simp only [matchTotalF]
        split
        · rfl
        · rename_i hk
          obtain ⟨hi, hj, hik, hjk⟩ := flm_bounds hk
          have hk1 : 1 ≤ (flm a b).2.2 := Nat.one_le_iff_ne_zero.mpr hk
          have eL := ih ((a.take (flm a b).1).length + (b.take (flm a b).2.1).length)
            (by simp only [List.length_take]; omega)
            (a.take (flm a b).1) (b.take (flm a b).2.1) f0 g0 rfl
            (by simp only [List.length_take]; omega)
            (by simp only [List.length_take]; omega)
          have eR := ih ((a.drop ((flm a b).1 + (flm a b).2.2)).length
              + (b.drop ((flm a b).2.1 + (flm a b).2.2)).length)
            (by simp only [List.length_drop]; omega)
            (a.drop ((flm a b).1 + (flm a b).2.2))
            (b.drop ((flm a b).2.1 + (flm a b).2.2)) f0 g0 rfl
            (by simp only [List.length_drop]; omega)
            (by simp only [List.length_drop]; omega)
          rw [eL, eR]

lemma ratio_nonneg (a b : List Char) : 0 ≤ ratio a b := by
  rw [ratio]
  split
  · norm_num
  · apply div_nonneg
    · positivity
    · positivity

lemma ratio_le_one (a b : List Char) : ratio a b ≤ 1 := by
  rw [ratio]
  split
  · norm_num
  · rename_i h
    have hpos : (0 : ℚ) < (a.length : ℚ) + (b.length : ℚ) := by
      have : 0 < a.length + b.length := Nat.pos_of_ne_zero h
      exact_mod_cast this
    rw [div_le_one hpos]
    have h1 : matchTotal a b ≤ a.length := (matchTotalF_le _ a b).1
    have h2 : matchTotal a b ≤ b.length := (matchTotalF_le _ a b).2
    have c1 : ((matchTotal a b : ℚ)) ≤ (a.length : ℚ) := by exact_mod_cast h1
    have c2 : ((matchTotal a b : ℚ)) ≤ (b.length : ℚ) := by exact_mod_cast h2
    linarith

lemma ratio_self (x : List Char) : ratio x x = 1 := by
  rcases eq_or_ne x [] with rfl | hx
  · simp [ratio]
  · have hlen : 0 < x.length := List.length_pos.mpr hx
    rw [ratio, if_neg (by omega), matchTotal_self]
    have hne : ((x.length : ℚ) + (x.length : ℚ)) ≠ 0 := by
      have : (0:ℚ) < (x.length : ℚ) := by exact_mod_cast hlen
      linarith
    field_simp
    ring

/-- Evaluation helper for `ratio` on concrete inputs (`Rat` arithmetic does
not reduce in the kernel, so concrete values are computed from the `Nat`-level
`matchTotal`). -/
lemma ratio_eval {a b : List Char} {m n k : Nat} (hm : matchTotal a b = k)
    (ha : a.length = m) (hb : b.length = n) (h : m + n ≠ 0) :
    ratio a b = 2 * (k : ℚ) / ((m : ℚ) + (n : ℚ)) := by
  rw [ratio, ha, hb, hm, if_neg h]

/-! ## Concrete instances used to exercise the theorems -/

/-- A Spotify source as built by a fresh `fetch_spotify_genres` hit
(match quality 0.9). -/
def gsSpotifyRockPop : GenreSource :=
  { source := "spotify", genres := ["Rock", "Pop"], confidence := 90,
    weight := 1, raw_data := [], api_confidence := 90, match_quality := 9/10 }

/-- Same match quality and weight as `gsSpotifyRockPop` but a different genre
list. -/
def gsSpotifyJazz : GenreSource :=
  { source := "spotify", genres := ["Jazz"], confidence := 90,
    weight := 1, raw_data := [], api_confidence := 90, match_quality := 9/10 }

/-- A source as rebuilt from a cache hit: persisted columns survive,
`match_quality` is back at its dataclass default 0. -/
def gsCacheHit : GenreSource :=
  { source := "spotify", genres := ["Rock"], confidence := 90,
    weight := 17/20, raw_data := [], api_confidence := 0, match_quality := 0 }

/-- A fully populated Spotify source before caching. -/
def gsSpotifyFull : GenreSource :=
  { source := "spotify", genres := ["Rock"], confidence := 95, weight := 1,
    raw_data := [("album_id", "al9"), ("artist_id", "ar9")],
    api_confidence := 95, match_quality := 19/20 }

/-- A Spotify search hit identical to the query `("Rock", "Roll")`. -/
def spotifyHitExact : SpotifyAlbumItem :=
  { artistName := "Rock", albumName := "Roll", artistId := "ar1", albumId := "al1" }

/-- A Spotify search hit sharing no character with the query
`("Rock", "Roll")`. -/
def spotifyHitMiss : SpotifyAlbumItem :=
  { artistName := "Zzzz", albumName := "Wwww", artistId := "ar2", albumId := "al2" }

/-- Adapter matches with scores 0.71, 0.85 and 0.60. -/
def amSpotify071 : AlbumMatch :=
  { source := "spotify", artist := "A", album := "B", match_score := 71/100 }

def amMB085 : AlbumMatch :=
  { source := "musicbrainz", artist := "A2", album := "B2", match_score := 85/100 }

def amDeezer060 : AlbumMatch :=
  { source := "deezer", artist := "A3", album := "B3", match_score := 60/100 }

/-- A two-album scanner library. -/
def batchAlbums : List (String × AlbumInfo) :=
  [("a1|b1", { artist := "a1", album := "b1", genres := ["Rock"] }),
   ("a2|b2", { artist := "a2", album := "b2", genres := [] })]

/-- A pipeline whose first album raises and whose second succeeds. -/
def batchPipeline : String → Except String MatchOutcome := fun album_key =>
  if album_key = "a1|b1" then Except.error "boom"
  else Except.ok { genres := ["Pop"], genre_confidence := 96, genre_sources_used := ["spotify"] }

/-- Non-raising collaborator stubs. -/
def okNormalize : List String → Except String (List String) := fun l => Except.ok l

def okMerge : List String → List String → Except String (List String) :=
  fun a b => Except.ok (a ++ b)

def okUpdate : List String → Except String Nat := fun _ => Except.ok 1

/-- A match outcome with one genre, one source and the given confidence. -/
def mrAt (c : ℚ) : MatchOutcome :=
  { genres := ["Rock"], genre_confidence := c, genre_sources_used := ["spotify"] }

/-- The `GenreSource` that `get_cached_result` rebuilds from a cached copy of
`gs`: persisted columns survive, the remaining fields take the dataclass
defaults. -/
def cachedViewOf (gs : GenreSource) : GenreSource :=
  { source := gs.source, genres := gs.genres, confidence := gs.confidence,
    weight := gs.weight, raw_data := [], api_confidence := 0, match_quality := 0 }

/-- A MusicBrainz detail lookup returning a release utterly unlike the query
`("Pink Floyd", "The Wall")`. -/
def mbDetailStub : String → Option MBReleaseDetail := fun _ =>
  some { artistName := "ZZZZ", title := "QQQQ", date := none, country := none,
         labelInfoList := [], barcode := none, genreList := ["Rock"],
         tagList := [], rgGenreList := [], rgTagList := [] }

/-! ## Shared dictionary lemmas -/

lemma lookupKey_insertReplace_self {β : Type} (m : List (String × β)) (k : String) (v : β) :
    lookupKey (listInsertReplace m k v) k = some v := by
  induction m with
  | nil => simp [listInsertReplace, lookupKey]
  | cons p rest ih =>
    obtain ⟨k0, v0⟩ := p
    by_cases h : k0 = k
    · simp [listInsertReplace, lookupKey, h]
    · simp [listInsertReplace, lookupKey, h, ih]

lemma lookupKey_insertReplace_ne {β : Type} (m : List (String × β)) (k k' : String) (v : β)
    (h : k' ≠ k) : lookupKey (listInsertReplace m k v) k' = lookupKey m k' := by
  induction m with
  | nil => simp [listInsertReplace, lookupKey, Ne.symm h]
  | cons p rest ih =>
    obtain ⟨k0, v0⟩ := p
    by_cases h0 : k0 = k
    · subst h0
      simp [listInsertReplace, lookupKey, Ne.symm h]
    · simp only [listInsertReplace, if_neg h0]
      by_cases h1 : k0 = k'
      · simp [lookupKey, h1]
      · simp [lookupKey, h1, ih]

/-! ## Claim theorems -/

/-- C6 (amended): for all strings `a` and `b`, `similarity(a, b)` is in
`[0, 1]`, `similarity(x, x) == 1.0` for every string `x`, and the function is
deterministic (two calls on the same inputs return the same value).  The
symmetry part of the original claim is refuted by
`c6_symmetry_counterexample`. -/
theorem c6_similarity_bounds_identity (s1 s2 : String) :
    0 ≤ calculate_string_similarity s1 s2 ∧
    calculate_string_similarity s1 s2 ≤ 1 ∧
    calculate_string_similarity s1 s1 = 1 ∧
    calculate_string_similarity s1 s2 = calculate_string_similarity s1 s2 :=
  ⟨ratio_nonneg _ _, ratio_le_one _ _, ratio_self _, rfl⟩

/-- C6 counterexample: `SequenceMatcher(None, a, b).ratio()` is not symmetric:
`ratio("aba", "babba") = 0.75` while `ratio("babba", "aba") = 0.5` (checked
against CPython's difflib), so `similarity(a, b) == similarity(b, a)` fails. -/
theorem c6_symmetry_counterexample :
    calculate_string_similarity "aba" "babba" = 3/4 ∧
    calculate_string_similarity "babba" "aba" = 1/2 ∧
    ¬ calculate_string_similarity "aba" "babba"
        = calculate_string_similarity "babba" "aba" := by
  have h1 : calculate_string_similarity "aba" "babba" = 3/4 := by
    rw [calculate_string_similarity,
      ratio_eval (show matchTotal "aba".data "babba".data = 3 by decide)
        (show ("aba".data).length = 3 by decide)
        (show ("babba".data).length = 5 by decide) (by norm_num)]
    norm_num
  have h2 : calculate_string_similarity "babba" "aba" = 1/2 := by
    rw [calculate_string_similarity,
      ratio_eval (show matchTotal "babba".data "aba".data = 2 by decide)
        (show ("babba".data).length = 5 by decide)
        (show ("aba".data).length = 3 by decide) (by norm_num)]
    norm_num
  refine ⟨h1, h2, ?_⟩
  rw [h1, h2]
  norm_num

/-- C9: `Matcher.evaluate_confidence` only ever returns `NEEDS_REVIEW` (when
`confidence >= 40`) or `SKIPPED` (when `confidence < 40`), never `COMPLETED`;
hence the status `Matcher.match_album` assigns is never `COMPLETED` either,
no matter how high the match score is. -/
theorem c9_matcher_never_auto_applies (c : ℚ) (best : Option AlbumMatch) :
    (evaluate_confidence c = ProcessingStatus.needs_review ↔ 40 ≤ c) ∧
    (evaluate_confidence c = ProcessingStatus.skipped ↔ c < 40) ∧
    evaluate_confidence c ≠ ProcessingStatus.completed ∧
    matchAlbumStatus best ≠ ProcessingStatus.completed := by
  have hmain : ∀ x : ℚ, (evaluate_confidence x = ProcessingStatus.needs_review ↔ 40 ≤ x) ∧
      (evaluate_confidence x = ProcessingStatus.skipped ↔ x < 40) ∧
      evaluate_confidence x ≠ ProcessingStatus.completed := by
    intro x
    rw [evaluate_confidence, matcherSkipThreshold]
    by_cases h : (40 : ℚ) ≤ x
    · rw [if_pos h]
      refine ⟨⟨fun _ => h, fun _ => rfl⟩, ⟨fun hc => ?_, fun hx => absurd h (not_le.mpr hx)⟩, by simp⟩
      exact absurd hc (by simp)
    · rw [if_neg h]
      refine ⟨⟨fun hc => absurd hc (by simp), fun hx => absurd hx h⟩,
        ⟨fun _ => not_le.mp h, fun _ => rfl⟩, by simp⟩
  refine ⟨(hmain c).1, (hmain c).2.1, (hmain c).2.2, ?_⟩
  cases best with
  | none => simp [matchAlbumStatus]
  | some m => exact (hmain (m.match_score * 100)).2.2

/-- C9 witness: `evaluate_confidence` at confidence 97 (a value above every
threshold) still yields `NEEDS_REVIEW`, and a 0.97-scored match is not
classified `COMPLETED`. -/
theorem c9_witness :
    evaluate_confidence 97 = ProcessingStatus.needs_review ∧
    matchAlbumStatus (some amMB085) ≠ ProcessingStatus.completed :=
  ⟨(c9_matcher_never_auto_applies 97 none).1.mpr (by norm_num),
   (c9_matcher_never_auto_applies 97 (some amMB085)).2.2.2⟩

/-- C7: after `APICache.set(key, value, ttl)` at time `t0`, a `get(key)`
before the expiry time `t0 + ttl*3600` returns the stored value, a `get(key)`
at or after the expiry time returns nothing, and `set` overwrites any
existing entry for the same key unconditionally (a second `set` makes `get`
behave exactly as if only the second `set` had happened). -/
theorem c7_api_cache_ttl (db : List (String × APICacheRow)) (key src : String)
    (v : List (String × String)) (t0 ttl t1 : ℚ) (httl : 0 < ttl) :
    (t1 < t0 + ttl * 3600 →
      apiCacheGet (apiCacheSet db key v src t0 ttl) key t1 = some v) ∧
    (t0 + ttl * 3600 ≤ t1 →
      apiCacheGet (apiCacheSet db key v src t0 ttl) key t1 = none) ∧
    (∀ (v2 : List (String × String)) (src2 : String) (t2 ttl2 t : ℚ),
      apiCacheGet (apiCacheSet (apiCacheSet db key v src t0 ttl) key v2 src2 t2 ttl2) key t
        = apiCacheGet (apiCacheSet db key v2 src2 t2 ttl2) key t) := by
  have hget : ∀ (d : List (String × APICacheRow)) (vv : List (String × String))
      (ss : String) (ts ttls tq : ℚ),
      apiCacheGet (apiCacheSet d key vv ss ts ttls) key tq
        = if tq < ts + ttls * 3600 then some vv else none := by
    intro d vv ss ts ttls tq
    rw [apiCacheGet, apiCacheSet, lookupKey_insertReplace_self]
  refine ⟨?_, ?_, ?_⟩
  · intro h
    rw [hget, if_pos h]
  · intro h
    rw [hget, if_neg (not_lt.mpr h)]
  · intro v2 src2 t2 ttl2 t
    rw [hget, hget]

/-- C7 witness: a value stored at time 1000 with a 1-hour TTL is read back
unchanged at time 1500 and is gone at time 4600 = 1000 + 3600; a second `set`
replaces it. -/
theorem c7_witness :
    apiCacheGet (apiCacheSet [] "k" [("a", "1")] "lastfm" 1000 1) "k" 1500
      = some [("a", "1")] ∧
    apiCacheGet (apiCacheSet [] "k" [("a", "1")] "lastfm" 1000 1) "k" 4600 = none ∧
    apiCacheGet (apiCacheSet (apiCacheSet [] "k" [("a", "1")] "lastfm" 1000 1)
        "k" [("b", "2")] "lastfm" 2000 1) "k" 2500
      = apiCacheGet (apiCacheSet [] "k" [("b", "2")] "lastfm" 2000 1) "k" 2500 :=
  ⟨(c7_api_cache_ttl [] "k" "lastfm" [("a", "1")] 1000 1 1500 (by norm_num)).1 (by norm_num),
   (c7_api_cache_ttl [] "k" "lastfm" [("a", "1")] 1000 1 4600 (by norm_num)).2.1 (by norm_num),
   (c7_api_cache_ttl [] "k" "lastfm" [("a", "1")] 1000 1 0 (by norm_num)).2.2
     [("b", "2")] "lastfm" 2000 1 2500⟩

/-- C10: a `GenreSource` stored with `cache_result` and read back with
`get_cached_result` (before expiry) keeps `source`, `genres`, `confidence`
and `weight`, but comes back with `match_quality = 0`, `api_confidence = 0`
and empty `raw_data` (those fields are not persisted in the `genre_cache`
table); consequently the rebuilt source contributes a zero
`match_quality * weight * 100` term, and aggregating it alone yields
confidence 0. -/
theorem c10_cache_drops_match_quality (db : List (String × GenreCacheRow))
    (artist album : String) (gs : GenreSource) (now t : ℚ)
    (hexp : t < now + 24 * 3600) :
    get_cached_result (cache_result db artist album gs now 24) artist album gs.source t
      = some (cachedViewOf gs) ∧
    (cachedViewOf gs).source = gs.source ∧ (cachedViewOf gs).genres = gs.genres ∧
    (cachedViewOf gs).confidence = gs.confidence ∧ (cachedViewOf gs).weight = gs.weight ∧
    (cachedViewOf gs).match_quality = 0 ∧ (cachedViewOf gs).api_confidence = 0 ∧
    (cachedViewOf gs).raw_data = [] ∧
    (aggregate_genres [cachedViewOf gs]).confidence = 0 := by
  refine ⟨?_, rfl, rfl, rfl, rfl, rfl, rfl, rfl, ?_⟩
  · rw [get_cached_result, cache_result, lookupKey_insertReplace_self]
    simp only
    rw [if_pos hexp]
    rfl
  · have hconf : (aggregate_genres [cachedViewOf gs]).confidence
        = aggregateConfidence [cachedViewOf gs] := by
      rw [aggregate_genres, if_neg (by simp)]
    rw [hconf, aggregateConfidence, if_neg (by simp)]
    simp only [List.map_cons, List.map_nil, List.sum_cons, List.sum_nil, List.length_cons,
      List.length_nil, cachedViewOf]
    norm_num

/-- C10 witness: the fully populated `gsSpotifyFull` (match quality 0.95,
nonempty raw data) cached at time 1000 and fetched at time 1000 comes back
with its persisted columns but `match_quality = 0`, and aggregating the
cache-hit source alone gives confidence 0. -/
theorem c10_witness :
    get_cached_result (cache_result [] "Pink Floyd" "The Wall" gsSpotifyFull 1000 24)
        "Pink Floyd" "The Wall" "spotify" 1000
      = some (cachedViewOf gsSpotifyFull) ∧
    (cachedViewOf gsSpotifyFull).match_quality = 0 ∧
    (aggregate_genres [cachedViewOf gsSpotifyFull]).confidence = 0 :=
  have h := c10_cache_drops_match_quality [] "Pink Floyd" "The Wall" gsSpotifyFull 1000 1000
    (by norm_num)
  ⟨h.1, h.2.2.2.2.2.1, h.2.2.2.2.2.2.2.2⟩

/-- C5 (amended): `sourcesUsed` is empty iff the input list is empty, and an
empty input gives empty `finalGenres` and confidence 0.  The converse
directions of the original three-way equivalence fail (see
`c5_counterexample`): a nonempty input can still yield confidence 0 (a
cache-hit source has `match_quality = 0`) while producing genres. -/
theorem c5_empty_aggregation (l : List GenreSource) :
    ((aggregate_genres l).sources_used = [] ↔ l = []) ∧
    (l = [] → (aggregate_genres l).final_genres = []
      ∧ (aggregate_genres l).confidence = 0) := by
  constructor
  · cases l with
    | nil => simp [aggregate_genres]
    | cons s t =>
      rw [aggregate_genres, if_neg (by simp)]
      simp
  · rintro rfl
    simp [aggregate_genres]

/-- C5 witness: the amended claim applied to the empty input. -/
theorem c5_witness :
    (aggregate_genres []).final_genres = [] ∧ (aggregate_genres []).confidence = 0 :=
  (c5_empty_aggregation []).2 rfl

/-- C5 counterexample: aggregating the single cache-hit-shaped source
`gsCacheHit` (`match_quality = 0`, weight 0.85, stored confidence 90, genre
"Rock") yields `sourcesUsed = ["spotify"]` and `finalGenres = ["Rock"]` but
confidence 0, so neither "`sourcesUsed` is empty iff `confidence == 0`" nor
"`finalGenres` is empty iff `confidence == 0`" holds. -/
theorem c5_counterexample :
    (aggregate_genres [gsCacheHit]).sources_used = ["spotify"] ∧
    (aggregate_genres [gsCacheHit]).final_genres = ["Rock"] ∧
    (aggregate_genres [gsCacheHit]).confidence = 0 ∧
    ¬ ((aggregate_genres [gsCacheHit]).sources_used = []
        ↔ (aggregate_genres [gsCacheHit]).confidence = 0) ∧
    ¬ ((aggregate_genres [gsCacheHit]).final_genres = []
        ↔ (aggregate_genres [gsCacheHit]).confidence = 0) := by
  have h0 : ¬([gsCacheHit] = ([] : List GenreSource)) := by simp
  have hsrc : (aggregate_genres [gsCacheHit]).sources_used = ["spotify"] := by
    rw [aggregate_genres, if_neg h0]
    rfl
  have hconf : (aggregate_genres [gsCacheHit]).confidence = 0 := by
    have h1 : (aggregate_genres [gsCacheHit]).confidence
        = aggregateConfidence [gsCacheHit] := by
      rw [aggregate_genres, if_neg h0]
    rw [h1, aggregateConfidence, if_neg h0]
    simp only [List.map_cons, List.map_nil, List.sum_cons, List.sum_nil,
      List.length_cons, List.length_nil, gsCacheHit]
    norm_num
  have hfin : (aggregate_genres [gsCacheHit]).final_genres = ["Rock"] := by
    have h1 : (aggregate_genres [gsCacheHit]).final_genres
        = selectTopGenres (sortDescByScore (genreScores [gsCacheHit])) := by
      rw [aggregate_genres, if_neg h0]
    have hsort : sortDescByScore (genreScores [gsCacheHit])
        = [(("Rock" : String), gsCacheHit.weight * (gsCacheHit.confidence / 100))] := rfl
    have hv : (3:ℚ)/10 ≤ gsCacheHit.weight * (gsCacheHit.confidence / 100) := by
      norm_num [gsCacheHit]
    rw [h1, hsort, selectTopGenres]
    simp only [List.foldl_cons, List.foldl_nil]
    rw [if_pos ⟨hv, by norm_num⟩]
    simp
  refine ⟨hsrc, hfin, hconf, ?_, ?_⟩
  · rw [hsrc, hconf]
    simp
  · rw [hfin, hconf]
    simp

/-- C1: for every nonempty list of sources (with the data-model bounds
`match_quality, weight ≥ 0`), the aggregated confidence equals the average of
`match_quality * weight * 100` over sources plus the multi-source bonus
`min(15, (numSources - 1) * 10)`, clamped to `[0, 100]`; and the confidence
depends only on the `(match_quality, weight)` projection of the sources, so
neither the number nor the content of the genre lists changes it. -/
theorem c1_aggregate_confidence_formula (l l2 : List GenreSource) (hne : l ≠ [])
    (hnn : ∀ s ∈ l, 0 ≤ s.match_quality ∧ 0 ≤ s.weight)
    (hp : l.map (fun s => (s.match_quality, s.weight))
        = l2.map (fun s => (s.match_quality, s.weight))) :
    (aggregate_genres l).confidence
      = max 0 (min 100 ((l.map (fun s => s.match_quality * s.weight * 100)).sum
          / (l.length : ℚ) + min 15 (((l.length - 1) * 10 : ℕ) : ℚ))) ∧
    (aggregate_genres l).confidence = (aggregate_genres l2).confidence := by
  have hconf : ∀ m : List GenreSource, m ≠ [] → (aggregate_genres m).confidence
      = min 100 ((m.map (fun s => s.match_quality * s.weight * 100)).sum
          / (m.length : ℚ) + min 15 (((m.length - 1) * 10 : ℕ) : ℚ)) := by
    intro m hm
    have h1 : (aggregate_genres m).confidence = aggregateConfidence m := by
      rw [aggregate_genres, if_neg hm]
    rw [h1, aggregateConfidence, if_neg hm]
    simp only [List.length_map]
  constructor
  · rw [hconf l hne]
    have hterm : 0 ≤ (l.map (fun s => s.match_quality * s.weight * 100)).sum := by
      apply List.sum_nonneg
      intro x hx
      rw [List.mem_map] at hx
      obtain ⟨s, hs, rfl⟩ := hx
      exact mul_nonneg (mul_nonneg (hnn s hs).1 (hnn s hs).2) (by norm_num)
    have havg : 0 ≤ (l.map (fun s => s.match_quality * s.weight * 100)).sum
        / (l.length : ℚ) := div_nonneg hterm (by positivity)
    have hbonus : (0:ℚ) ≤ min 15 (((l.length - 1) * 10 : ℕ) : ℚ) :=
      le_min (by norm_num) (by positivity)
    rw [max_eq_right (le_min (by norm_num) (by linarith))]
  · have hne2 : l2 ≠ [] := by
      intro h
      apply hne
      subst h
      simpa using List.map_eq_nil_iff.mp hp
    rw [hconf l hne, hconf l2 hne2]
    have hlen2 : l.length = l2.length := by
      have h := congrArg List.length hp
      simpa using h
    have hsum : (l.map (fun s => s.match_quality * s.weight * 100)).sum
        = (l2.map (fun s => s.match_quality * s.weight * 100)).sum := by
      have h2 := congrArg (fun ll : List (ℚ × ℚ) =>
        (ll.map (fun p => p.1 * p.2 * 100)).sum) hp
      simpa [List.map_map, Function.comp] using h2
    rw [hsum, hlen2]

/-- C1 witness: a single 0.9-quality Spotify source; swapping its two-genre
list for a different single-genre list (`gsSpotifyJazz`) leaves the
confidence unchanged. -/
theorem c1_witness :
    (aggregate_genres [gsSpotifyRockPop]).confidence
      = max 0 (min 100 ((([gsSpotifyRockPop] : List GenreSource).map
          (fun s => s.match_quality * s.weight * 100)).sum
            / (([gsSpotifyRockPop] : List GenreSource).length : ℚ)
          + min 15 (((([gsSpotifyRockPop] : List GenreSource).length - 1) * 10 : ℕ) : ℚ))) ∧
    (aggregate_genres [gsSpotifyRockPop]).confidence
      = (aggregate_genres [gsSpotifyJazz]).confidence :=
  c1_aggregate_confidence_formula [gsSpotifyRockPop] [gsSpotifyJazz] (by simp)
    (by
      intro s hs
      rw [List.mem_singleton] at hs
      subst hs
      constructor <;> norm_num [gsSpotifyRockPop])
    rfl

/-- C2: with the default thresholds (auto-apply 95, review 70, skip 40),
`BatchProcessor.process_album` classifies a successful match result as:
`confidence >= 95` → COMPLETED; `70 <= confidence < 95` → NEEDS_REVIEW with
the "Medium confidence" reason; `40 <= confidence < 70` → NEEDS_REVIEW with
the distinct "Low confidence" reason; `confidence < 40` → SKIPPED.  (Stated
for a dry run, where no file update is attempted.) -/
theorem c2_confidence_banding (album_key artist album : String)
    (og : List String) (mr : MatchOutcome)
    (normalizeList : List String → Except String (List String))
    (mergeGenres : List String → List String → Except String (List String))
    (updateFiles : List String → Except String Nat)
    (ng fg : List String)
    (hn : normalizeList mr.genres = Except.ok ng)
    (hm : mergeGenres og ng = Except.ok fg) :
    (95 ≤ mr.genre_confidence →
      (process_album album_key artist album og (Except.ok mr) normalizeList
        mergeGenres updateFiles 95 true).status = ProcessingStatus.completed) ∧
    (70 ≤ mr.genre_confidence → mr.genre_confidence < 95 →
      (process_album album_key artist album og (Except.ok mr) normalizeList
        mergeGenres updateFiles 95 true).status = ProcessingStatus.needs_review ∧
      (process_album album_key artist album og (Except.ok mr) normalizeList
        mergeGenres updateFiles 95 true).manual_review_reason
          = some ReviewReason.mediumConfidence) ∧
    (40 ≤ mr.genre_confidence → mr.genre_confidence < 70 →
      (process_album album_key artist album og (Except.ok mr) normalizeList
        mergeGenres updateFiles 95 true).status = ProcessingStatus.needs_review ∧
      (process_album album_key artist album og (Except.ok mr) normalizeList
        mergeGenres updateFiles 95 true).manual_review_reason
          = some ReviewReason.lowConfidence) ∧
    (mr.genre_confidence < 40 →
      (process_album album_key artist album og (Except.ok mr) normalizeList
        mergeGenres updateFiles 95 true).status = ProcessingStatus.skipped ∧
      (process_album album_key artist album og (Except.ok mr) normalizeList
        mergeGenres updateFiles 95 true).manual_review_reason
          = some ReviewReason.veryLowConfidence) ∧
    ReviewReason.mediumConfidence ≠ ReviewReason.lowConfidence := by
  refine ⟨?_, ?_, ?_, ?_, by simp⟩
  · intro h95
    simp [process_album, Bind.bind, Except.bind, hn, hm, if_pos h95, Pure.pure, Except.pure]
  · intro h70 h95
    simp [process_album, Bind.bind, Except.bind, hn, hm, if_neg (not_le.mpr h95),
      if_pos h70, Pure.pure, Except.pure]
  · intro h40 h70
    have f95 : ¬ (95 : ℚ) ≤ mr.genre_confidence := not_le.mpr (by linarith)
    have f70 : ¬ (70 : ℚ) ≤ mr.genre_confidence := not_le.mpr h70
    simp [process_album, Bind.bind, Except.bind, hn, hm, f95, f70, h40,
      Pure.pure, Except.pure]
  · intro h40
    have f95 : ¬ (95 : ℚ) ≤ mr.genre_confidence := not_le.mpr (by linarith)
    have f70 : ¬ (70 : ℚ) ≤ mr.genre_confidence := not_le.mpr (by linarith)
    have f40 : ¬ (40 : ℚ) ≤ mr.genre_confidence := not_le.mpr h40
    simp [process_album, Bind.bind, Except.bind, hn, hm, f95, f70, f40,
      Pure.pure, Except.pure]

/-- C2 witness: confidences 96, 80, 50 and 10 land in the four documented
bands. -/
theorem c2_witness :
    (process_album "k" "a" "b" ["Old"] (Except.ok (mrAt 96)) okNormalize okMerge
      okUpdate 95 true).status = ProcessingStatus.completed ∧
    (process_album "k" "a" "b" ["Old"] (Except.ok (mrAt 80)) okNormalize okMerge
      okUpdate 95 true).status = ProcessingStatus.needs_review ∧
    (process_album "k" "a" "b" ["Old"] (Except.ok (mrAt 80)) okNormalize okMerge
      okUpdate 95 true).manual_review_reason = some ReviewReason.mediumConfidence ∧
    (process_album "k" "a" "b" ["Old"] (Except.ok (mrAt 50)) okNormalize okMerge
      okUpdate 95 true).status = ProcessingStatus.needs_review ∧
    (process_album "k" "a" "b" ["Old"] (Except.ok (mrAt 50)) okNormalize okMerge
      okUpdate 95 true).manual_review_reason = some ReviewReason.lowConfidence ∧
    (process_album "k" "a" "b" ["Old"] (Except.ok (mrAt 10)) okNormalize okMerge
      okUpdate 95 true).status = ProcessingStatus.skipped := by
  have h96 := (c2_confidence_banding "k" "a" "b" ["Old"] (mrAt 96) okNormalize okMerge
    okUpdate ["Rock"] (["Old"] ++ ["Rock"]) rfl rfl).1 (by norm_num [mrAt])
  have h80 := (c2_confidence_banding "k" "a" "b" ["Old"] (mrAt 80) okNormalize okMerge
    okUpdate ["Rock"] (["Old"] ++ ["Rock"]) rfl rfl).2.1 (by norm_num [mrAt]) (by norm_num [mrAt])
  have h50 := (c2_confidence_banding "k" "a" "b" ["Old"] (mrAt 50) okNormalize okMerge
    okUpdate ["Rock"] (["Old"] ++ ["Rock"]) rfl rfl).2.2.1 (by norm_num [mrAt]) (by norm_num [mrAt])
  have h10 := (c2_confidence_banding "k" "a" "b" ["Old"] (mrAt 10) okNormalize okMerge
    okUpdate ["Rock"] (["Old"] ++ ["Rock"]) rfl rfl).2.2.2.1 (by norm_num [mrAt])
  exact ⟨h96, h80.1, h80.2, h50.1, h50.2, h10.1⟩

/-- Python's `max`-scan specification: the fold either keeps the initial
element (when nothing beats it) or lands on an element of the list such that
everything before it is strictly smaller and everything after it is no
larger (the first maximal element wins). -/
lemma foldl_pythonMax_spec (t : List AlbumMatch) (init : AlbumMatch) :
    ∃ r, t.foldl (fun best x => if best.match_score < x.match_score then x else best) init = r ∧
      ((r = init ∧ ∀ y ∈ t, y.match_score ≤ init.match_score) ∨
       (∃ t1 t2, t = t1 ++ r :: t2 ∧ init.match_score < r.match_score ∧
         (∀ y ∈ t1, y.match_score < r.match_score) ∧
         (∀ y ∈ t2, y.match_score ≤ r.match_score))) := by
  induction t generalizing init with
  | nil => exact ⟨init, rfl, Or.inl ⟨rfl, by simp⟩⟩
  | cons x xs ih =>
    by_cases hx : init.match_score < x.match_score
    · obtain ⟨r, hr, hcase⟩ := ih x
      refine ⟨r, by simpa [if_pos hx] using hr, Or.inr ?_⟩
      rcases hcase with ⟨rfl, hall⟩ | ⟨t1, t2, rfl, hlt, h1, h2⟩
      · exact ⟨[], xs, rfl, hx, by simp, hall⟩
      · exact ⟨x :: t1, t2, rfl, lt_trans hx hlt, by
          intro y hy
          rcases List.mem_cons.mp hy with rfl | hy
          · exact hlt
          · exact h1 y hy, h2⟩
    · obtain ⟨r, hr, hcase⟩ := ih init
      refine ⟨r, by simpa [if_neg hx] using hr, ?_⟩
      rcases hcase with ⟨rfl, hall⟩ | ⟨t1, t2, rfl, hlt, h1, h2⟩
      · exact Or.inl ⟨rfl, by
          intro y hy
          rcases List.mem_cons.mp hy with rfl | hy
          · exact not_lt.mp hx
          · exact hall y hy⟩
      · refine Or.inr ⟨x :: t1, t2, rfl, hlt, ?_, h2⟩
        intro y hy
        rcases List.mem_cons.mp hy with rfl | hy
        · exact lt_of_le_of_lt (not_lt.mp hx) hlt
        · exact h1 y hy

/-- C4: `find_best_album_match` returns `None` exactly when every adapter
returned no match; any returned match sits at a position of the concatenated
match list where everything earlier is strictly lower-scored and everything
later is no higher (strict max, first-seen wins exact ties); and whenever one
match strictly dominates all others, it is the result — independently of
which adapter produced it or in which order the lists are concatenated. -/
theorem c4_find_best_album_match (s m d : List AlbumMatch) :
    (find_best_album_match s m d = none ↔ s ++ m ++ d = []) ∧
    (∀ x, find_best_album_match s m d = some x →
      ∃ l1 l2, s ++ m ++ d = l1 ++ x :: l2 ∧
        (∀ y ∈ l1, y.match_score < x.match_score) ∧
        (∀ y ∈ l2, y.match_score ≤ x.match_score)) ∧
    (∀ x ∈ s ++ m ++ d, (∀ y ∈ s ++ m ++ d, y ≠ x → y.match_score < x.match_score) →
      find_best_album_match s m d = some x) := by
  rw [find_best_album_match]
  cases hall : s ++ m ++ d with
  | nil => simp [pythonMaxByScore, hall]
  | cons h t =>
    obtain ⟨r, hr, hcase⟩ := foldl_pythonMax_spec t h
    have hres : pythonMaxByScore (h :: t) = some r := by
      rw [pythonMaxByScore, hr]
    refine ⟨by simp [hres], ?_, ?_⟩
    · intro x hx
      rw [hres] at hx
      injection hx with hx
      subst hx
      rcases hcase with ⟨rfl, hall2⟩ | ⟨t1, t2, rfl, hlt, h1, h2⟩
      · exact ⟨[], t, rfl, by simp, hall2⟩
      · refine ⟨h :: t1, t2, rfl, ?_, h2⟩
        intro y hy
        rcases List.mem_cons.mp hy with rfl | hy
        · exact hlt
        · exact h1 y hy
    · intro x hx hdom
      rw [hres]
      have hrmem : r ∈ h :: t := by
        rcases hcase with ⟨rfl, _⟩ | ⟨t1, t2, ht, _, _, _⟩
        · exact List.mem_cons_self _ _
        · rw [ht]
          exact List.mem_cons_of_mem _ (List.mem_append_right _ (List.mem_cons_self _ _))
      have hge : ∀ y ∈ h :: t, y.match_score ≤ r.match_score := by
        rcases hcase with ⟨rfl, hall2⟩ | ⟨t1, t2, ht, hlt, h1, h2⟩
        · intro y hy
          rcases List.mem_cons.mp hy with rfl | hy
          · exact le_refl _
          · exact hall2 y hy
        · intro y hy
          rcases List.mem_cons.mp hy with rfl | hy
          · exact le_of_lt hlt
          · rw [ht] at hy
            rcases List.mem_append.mp hy with hy | hy
            · exact le_of_lt (h1 y hy)
            · rcases List.mem_cons.mp hy with rfl | hy
              · exact le_refl _
              · exact h2 y hy
      by_cases hrx : r = x
      · rw [hrx]
      · have h1 := hdom r hrmem hrx
        have h2 := hge x hx
        exact absurd (lt_of_le_of_lt h2 h1) (lt_irrefl _)

/-- C4 witness: matches scored 0.71 (Spotify), 0.85 (MusicBrainz) and 0.60
(Deezer): the 0.85 match is selected, in both adapter orders. -/
theorem c4_witness :
    find_best_album_match [amSpotify071] [amMB085] [amDeezer060] = some amMB085 ∧
    find_best_album_match [amDeezer060] [amMB085] [amSpotify071] = some amMB085 := by
  have hdom1 : ∀ y ∈ [amSpotify071] ++ [amMB085] ++ [amDeezer060],
      y ≠ amMB085 → y.match_score < amMB085.match_score := by
    intro y hy hne
    simp at hy
    rcases hy with rfl | rfl | rfl
    · norm_num [amSpotify071, amMB085]
    · exact absurd rfl hne
    · norm_num [amDeezer060, amMB085]
  have hdom2 : ∀ y ∈ [amDeezer060] ++ [amMB085] ++ [amSpotify071],
      y ≠ amMB085 → y.match_score < amMB085.match_score := by
    intro y hy hne
    simp at hy
    rcases hy with rfl | rfl | rfl
    · norm_num [amDeezer060, amMB085]
    · exact absurd rfl hne
    · norm_num [amSpotify071, amMB085]
  exact ⟨(c4_find_best_album_match [amSpotify071] [amMB085] [amDeezer060]).2.2 amMB085
      (by simp) hdom1,
    (c4_find_best_album_match [amDeezer060] [amMB085] [amSpotify071]).2.2 amMB085
      (by simp) hdom2⟩

/-- The batch loop unrolled: the fold over album keys is the `filterMap` of
per-album processing over the keys found in the library, independent of any
accumulated results. -/
lemma run_batch_job_foldl (albums : List (String × AlbumInfo))
    (pipeline : String → Except String MatchOutcome)
    (nl : List String → Except String (List String))
    (mg : List String → List String → Except String (List String))
    (uf : List String → Except String Nat) (ct : ℚ) (dr : Bool) :
    ∀ (keys : List String) (acc : List AlbumProcessingResult),
      keys.foldl (fun results album_key =>
        match lookupKey albums album_key with
        | none => results
        | some info => results ++ [process_album album_key info.artist info.album
            info.genres (pipeline album_key) nl mg uf ct dr]) acc
      = acc ++ keys.filterMap (fun k => (lookupKey albums k).map (fun info =>
          process_album k info.artist info.album info.genres (pipeline k) nl mg uf ct dr)) := by
  intro keys
  induction keys with
  | nil => intro acc; simp
  | cons k ks ih =>
    intro acc
    rw [List.foldl_cons, List.filterMap_cons]
    cases hk : lookupKey albums k with
    | none =>
      simp only [hk, Option.map_none]
      exact ih acc
    | some info =>
      simp only [hk, Option.map_some]
      rw [ih (acc ++ [_])]
      simp

/-- C8: the batch orchestrator produces exactly one result per album found in
the library, in list order, whatever the per-album outcomes are; and when the
pipeline of an album raises an exception `e`, the recorded result for that
album has status `FAILED` and `error_message = e`, while every other album is
still processed (the first conjunct's `filterMap` shape does not depend on
any album failing). -/
theorem c8_per_album_failure_isolated (albums : List (String × AlbumInfo))
    (keys : List String) (pipeline : String → Except String MatchOutcome)
    (nl : List String → Except String (List String))
    (mg : List String → List String → Except String (List String))
    (uf : List String → Except String Nat) (ct : ℚ) (dr : Bool) :
    run_batch_job albums keys pipeline nl mg uf ct dr
      = keys.filterMap (fun k => (lookupKey albums k).map (fun info =>
          process_album k info.artist info.album info.genres (pipeline k) nl mg uf ct dr)) ∧
    (∀ k info e, k ∈ keys → lookupKey albums k = some info → pipeline k = Except.error e →
      ({ album_key := k, artist := info.artist, album := info.album,
         original_genres := info.genres, suggested_genres := [],
         final_genres := info.genres, confidence := 0, sources_used := [],
         files_updated := 0, status := ProcessingStatus.failed,
         error_message := some e, manual_review_reason := none } : AlbumProcessingResult)
        ∈ run_batch_job albums keys pipeline nl mg uf ct dr) := by
  have h1 : run_batch_job albums keys pipeline nl mg uf ct dr
      = keys.filterMap (fun k => (lookupKey albums k).map (fun info =>
          process_album k info.artist info.album info.genres (pipeline k) nl mg uf ct dr)) := by
    rw [run_batch_job]
    rw [run_batch_job_foldl albums pipeline nl mg uf ct dr keys []]
    simp
  refine ⟨h1, ?_⟩
  intro k info e hk hlook herr
  rw [h1]
  apply List.mem_filterMap.mpr
  refine ⟨k, hk, ?_⟩
  rw [hlook, Option.map_some', herr]
  rfl

/-- C8 witness: in a two-album batch where the first album's pipeline raises
`"boom"`, the recorded results contain the FAILED entry for the first album
and still hold one result per album (the batch was not aborted). -/
theorem c8_witness :
    ({ album_key := "a1|b1", artist := "a1", album := "b1",
       original_genres := ["Rock"], suggested_genres := [], final_genres := ["Rock"],
       confidence := 0, sources_used := [], files_updated := 0,
       status := ProcessingStatus.failed, error_message := some "boom",
       manual_review_reason := none } : AlbumProcessingResult)
      ∈ run_batch_job batchAlbums ["a1|b1", "a2|b2"] batchPipeline okNormalize
          okMerge okUpdate 95 true ∧
    (run_batch_job batchAlbums ["a1|b1", "a2|b2"] batchPipeline okNormalize
        okMerge okUpdate 95 true).length = 2 := by
  have h := c8_per_album_failure_isolated batchAlbums ["a1|b1", "a2|b2"] batchPipeline
    okNormalize okMerge okUpdate 95 true
  refine ⟨h.2 "a1|b1" { artist := "a1", album := "b1", genres := ["Rock"] } "boom"
    (by simp) rfl rfl, ?_⟩
  rw [h.1]
  rfl

/-- The best-match scan of `fetch_spotify_genres` never reaches a bound that
every candidate's score stays strictly under. -/
lemma spotifyBestLoop_lt (artist album : String) (items : List SpotifyAlbumItem)
    (bound : ℚ) (hb : 0 < bound)
    (h : ∀ item ∈ items,
      (calculate_string_similarity (pyLower artist) (pyLower item.artistName)
        + calculate_string_similarity (pyLower album) (pyLower item.albumName)) / 2 < bound) :
    (spotifyBestLoop artist album items).2 < bound := by
  rw [spotifyBestLoop]
  have haux : ∀ (l : List SpotifyAlbumItem) (acc : Option SpotifyAlbumItem × ℚ),
      acc.2 < bound →
      (∀ item ∈ l,
        (calculate_string_similarity (pyLower artist) (pyLower item.artistName)
          + calculate_string_similarity (pyLower album) (pyLower item.albumName)) / 2 < bound) →
      (l.foldl (fun acc item =>
        let artist_match := calculate_string_similarity (pyLower artist) (pyLower item.artistName)
        let album_match := calculate_string_similarity (pyLower album) (pyLower item.albumName)
        let score := (artist_match + album_match) / 2
        if acc.2 < score then (some item, score) else acc) acc).2 < bound := by
    intro l
    induction l with
    | nil => intro acc hacc _; exact hacc
    | cons it rest ih =>
      intro acc hacc hall
      rw [List.foldl_cons]
      apply ih
      · simp only
        split
        · exact hall it (List.mem_cons_self _ _)
        · exact hacc
      · intro item hmem
        exact hall item (List.mem_cons_of_mem _ hmem)
  exact haux items (none, 0) hb h

/-- C3 (amended): the `hybrid_genre_fetcher` adapters do enforce the 0.7
threshold on their fresh-search path — on a cache miss,
`fetch_spotify_genres` never returns a result whose `match_quality` is below
0.7, and it returns `None` whenever every candidate scores below 0.7.  The
original claim over *every* adapter is refuted by `c3_counterexample`:
`enhanced_api_client.search_musicbrainz_release` takes the first release
returned with no match-score gate at all. -/
theorem c3_spotify_threshold (en : Bool) (artist album : String)
    (items : List SpotifyAlbumItem) (artistGenres : String → List String) :
    (∀ gs, fetch_spotify_genres en none artist album items artistGenres = some gs →
      7/10 ≤ gs.match_quality) ∧
    ((∀ item ∈ items,
        (calculate_string_similarity (pyLower artist) (pyLower item.artistName)
          + calculate_string_similarity (pyLower album) (pyLower item.albumName)) / 2 < 7/10) →
      fetch_spotify_genres en none artist album items artistGenres = none) := by
  constructor
  · intro gs h
    cases en with
    | false => simp [fetch_spotify_genres] at h
    | true =>
      rw [fetch_spotify_genres] at h
      simp only [Bool.not_true, Bool.false_eq_true, if_false] at h
      split at h
      · exact absurd h (by simp)
      · split at h
        · exact absurd h (by simp)
        · split at h
          · exact absurd h (by simp)
          · split at h
            · exact absurd h (by simp)
            · rename_i hnotlt _
              injection h with h
              subst h
              exact not_lt.mp hnotlt
  · intro hall
    cases en with
    | false => simp [fetch_spotify_genres]
    | true =>
      rw [fetch_spotify_genres]
      simp only [Bool.not_true, Bool.false_eq_true, if_false]
      by_cases hi : items = []
      · rw [if_pos hi]
      · rw [if_neg hi]
        have hlt := spotifyBestLoop_lt artist album items (7/10) (by norm_num) hall
        cases hbest : (spotifyBestLoop artist album items).1 with
        | none => rfl
        | some bm =>
          dsimp only
          rw [if_pos hlt]

/-- C3 witness: with query `("Rock", "Roll")` and one candidate sharing no
character with it (score 0 < 0.7), the Spotify fetch yields `None`. -/
theorem c3_witness :
    fetch_spotify_genres true none "Rock" "Roll" [spotifyHitMiss]
      (fun _ => ["Rock"]) = none := by
  apply (c3_spotify_threshold true "Rock" "Roll" [spotifyHitMiss] (fun _ => ["Rock"])).2
  intro item hmem
  rw [List.mem_singleton] at hmem
  subst hmem
  have h1 : calculate_string_similarity (pyLower "Rock")
      (pyLower spotifyHitMiss.artistName) = 0 := by
    rw [show pyLower "Rock" = "rock" from rfl,
      show pyLower spotifyHitMiss.artistName = "zzzz" from rfl,
      calculate_string_similarity,
      ratio_eval (show matchTotal "rock".data "zzzz".data = 0 by decide)
        (show ("rock".data).length = 4 by decide)
        (show ("zzzz".data).length = 4 by decide) (by norm_num)]
    norm_num
  have h2 : calculate_string_similarity (pyLower "Roll")
      (pyLower spotifyHitMiss.albumName) = 0 := by
    rw [show pyLower "Roll" = "roll" from rfl,
      show pyLower spotifyHitMiss.albumName = "wwww" from rfl,
      calculate_string_similarity,
      ratio_eval (show matchTotal "roll".data "wwww".data = 0 by decide)
        (show ("roll".data).length = 4 by decide)
        (show ("wwww".data).length = 4 by decide) (by norm_num)]
    norm_num
  rw [h1, h2]
  norm_num

set_option maxRecDepth 8000 in
/-- C3 counterexample: `enhanced_api_client.search_musicbrainz_release`, fed
one release whose artist/title share no character with the query
`("Pink Floyd", "The Wall")`, still returns a match (the first search hit),
even though the match's similarity score against the query is 0 < 0.7 — so
the claim that every adapter's album search never returns a match scoring
below 0.7 is false. -/
theorem c3_counterexample :
    (search_musicbrainz_release none "Pink Floyd" "The Wall" [{ id := "mbid1" }]
      mbDetailStub).isSome = true ∧
    Option.map (fun m => (m.artist, m.album))
      (search_musicbrainz_release none "Pink Floyd" "The Wall" [{ id := "mbid1" }]
        mbDetailStub) = some ("ZZZZ", "QQQQ") ∧
    (calculate_string_similarity (pyLower "Pink Floyd") (pyLower "ZZZZ")
      + calculate_string_similarity (pyLower "The Wall") (pyLower "QQQQ")) / 2
        < 7/10 := by
  refine ⟨rfl, rfl, ?_⟩
  have h1 : calculate_string_similarity (pyLower "Pink Floyd") (pyLower "ZZZZ") = 0 := by
    rw [show pyLower "Pink Floyd" = "pink floyd" from rfl,
      show pyLower "ZZZZ" = "zzzz" from rfl, calculate_string_similarity,
      ratio_eval (show matchTotal "pink floyd".data "zzzz".data = 0 by decide)
        (show ("pink floyd".data).length = 10 by decide)
        (show ("zzzz".data).length = 4 by decide) (by norm_num)]
    norm_num
  have h2 : calculate_string_similarity (pyLower "The Wall") (pyLower "QQQQ") = 0 := by
    rw [show pyLower "The Wall" = "the wall" from rfl,
      show pyLower "QQQQ" = "qqqq" from rfl, calculate_string_similarity,
      ratio_eval (show matchTotal "the wall".data "qqqq".data = 0 by decide)
        (show ("the wall".data).length = 8 by decide)
        (show ("qqqq".data).length = 4 by decide) (by norm_num)]
    norm_num
  rw [h1, h2]
  norm_num

end MusicProyo
